import Mathlib

/-!
Verification of the secure output-staging subsystem of the local-voice-mcp
TTS runner scripts (`scripts/tts_runner.py`, `scripts/kokoro_runner.py`,
`scripts/coqui_tts.py`).

The filesystem is modelled as a finite map from absolute, normalized paths
(lists of segments) to nodes (regular file with content, directory, or
symbolic link with an absolute target).  Python's `os.path` functions used
by the source (`realpath`, `exists`, `islink`, `commonpath`, `startswith`
on rendered path strings) are embedded over this model.  Paths are assumed
normalized (no `.` / `..` segments) and symlink targets absolute, which
covers every path the scripts manipulate.
-/

deriving instance DecidableEq for Except

namespace LocalVoice

/-- An absolute filesystem path, as the list of its segments
(`/tmp/out.wav` is `["tmp", "out.wav"]`; the root `/` is `[]`). -/
abbrev Path := List String

/-- A filesystem node: a regular file with byte content, a directory,
or a symbolic link holding an absolute target path. -/
inductive Node
  | file (content : List Nat)
  | dir
  | symlink (target : Path)
deriving DecidableEq

/-- A static snapshot of the filesystem: a finite association list from
paths to nodes. -/
structure FS where
  entries : List (Path × Node)
deriving DecidableEq

/-- Raw lookup of the node stored at exactly `p` (no symlink following). -/
def FS.lookup (fs : FS) (p : Path) : Option Node :=
  (fs.entries.find? (fun e => e.1 == p)).map (fun e => e.2)

/-- Store node `n` at path `p`, replacing any previous entry (the effect of
creating or overwriting a filesystem entry). -/
def FS.set (fs : FS) (p : Path) (n : Node) : FS :=
  ⟨(p, n) :: fs.entries.filter (fun e => !(e.1 == p))⟩

/-- Remove the entry at exactly `p` (the effect of `os.remove` / the source
half of a move). -/
def FS.remove (fs : FS) (p : Path) : FS :=
  ⟨fs.entries.filter (fun e => !(e.1 == p))⟩

/-- Remove `p` and everything below it (the effect of `shutil.rmtree`,
modelled as succeeding; the source logs and continues if removal fails). -/
def FS.removeTree (fs : FS) (p : Path) : FS :=
  ⟨fs.entries.filter (fun e => !(p.isPrefixOf e.1))⟩

/-- Fuel-indexed core of `os.path.realpath`: scan segments left to right,
keeping the already-resolved prefix in `acc`; an existing symlink segment
restarts resolution at its (absolute) target, a missing or regular segment
is appended unresolved, matching Python's non-strict `realpath`.  Fuel
exhaustion returns the remaining path unresolved, matching Python's
behaviour on symlink loops. -/
def realpathAux (fs : FS) : Nat → Path → List String → Path
  | 0, acc, rest => acc ++ rest
  | _ + 1, acc, [] => acc
  | fuel + 1, acc, seg :: rest =>
    match fs.lookup (acc ++ [seg]) with
    | some (Node.symlink target) => realpathAux fs fuel [] (target ++ rest)
    | _ => realpathAux fs fuel (acc ++ [seg]) rest

/-- Resolution fuel; any chain the scripts meet is far shorter. -/
def realFuel : Nat := 32

/-- `os.path.realpath`: canonical form of `p` with all existing symlinks in
it resolved. -/
def realpath (fs : FS) (p : Path) : Path :=
  realpathAux fs realFuel [] p

/-- `os.path.exists`: follows symlinks, so a dangling link does not exist. -/
def pexists (fs : FS) (p : Path) : Bool :=
  (fs.lookup (realpath fs p)).isSome

/-- `os.path.islink`: `lstat` semantics — ancestors of `p` are resolved but
the final component is not, and the check is whether that entry is a
symbolic link. -/
def islink (fs : FS) (p : Path) : Bool :=
  match p.getLast? with
  | none => false
  | some last =>
    match fs.lookup (realpath fs p.dropLast ++ [last]) with
    | some (Node.symlink _) => true
    | _ => false

/-- The path separator used when rendering a path to its string form. -/
def SEP : Char := '/'

/-- The characters after the leading separator in the rendered string form
of a path (`["tmp", "foo"]` renders to `tmp/foo`). -/
def renderTail : Path → List Char
  | [] => []
  | [s] => s.data
  | s :: t :: rest => s.data ++ SEP :: renderTail (t :: rest)

/-- The full rendered string form of an absolute path, as Python holds it
(`["tmp", "foo"]` renders to `/tmp/foo`, `[]` to `/`). -/
def renderPath (p : Path) : List Char :=
  SEP :: renderTail p

/-- `os.path.commonpath` on two absolute normalized paths: their longest
common segment prefix. -/
def commonPrefix : Path → Path → Path
  | a :: as, b :: bs => if a = b then a :: commonPrefix as bs else []
  | _, _ => []

/-- The containment test of `validate_output_path` (tts_runner.py lines
205-217): `output_real.startswith(temp_dir + os.sep) or output_real ==
temp_dir`, falling back to `os.path.commonpath([output_real, temp_dir]) ==
temp_dir`. -/
def isWithinRoot (outputReal tempDir : Path) : Bool :=
  ((renderPath tempDir ++ [SEP]).isPrefixOf (renderPath outputReal))
    || decide (outputReal = tempDir)
    || decide (commonPrefix outputReal tempDir = tempDir)

/-- Well-formedness of a segment list: no segment contains the path
separator.  Every path produced by `os.path.realpath` satisfies this. -/
def wfPath (p : Path) : Prop := ∀ s ∈ p, SEP ∉ s.data

instance (p : Path) : Decidable (wfPath p) :=
  inferInstanceAs (Decidable (∀ s ∈ p, SEP ∉ s.data))

/-- The allowed temp directories of `validate_output_path` (lines 189-197):
the resolved user temp directory, plus the resolved `/tmp` when `/tmp`
exists. -/
def allowedTempDirs (fs : FS) (userTemp : Path) : List Path :=
  realpath fs userTemp :: (if pexists fs ["tmp"] then [realpath fs ["tmp"]] else [])

/-- Errors raised by `validate_output_path` (both are `ValueError` in the
source; the constructors name the two distinct raise sites). -/
inductive PathErr
  | invalidOutputPath
  | symlinkComponent (component : Path)
deriving DecidableEq

/-- The component walk of `validate_output_path` (lines 229-237): extend
`current` by each relative part in turn (skipping empty and `.` parts) and
return the first extension that exists and is a symlink. -/
def walkParts (fs : FS) : List String → Path → Option Path
  | [], _ => none
  | part :: rest, current =>
    if part = "" ∨ part = "." then walkParts fs rest current
    else
      if pexists fs (current ++ [part]) && islink fs (current ++ [part]) then
        some (current ++ [part])
      else walkParts fs rest (current ++ [part])

/-- `validate_output_path` (tts_runner.py lines 186-237): resolve the output
path, find the first allowed temp directory containing it (error
`invalidOutputPath` if none), then walk the components of the resolved path
below the matched directory looking for an existing symlink component.  When
the matched directory is not a segment prefix of the resolved path,
`os.path.relpath` starts with `..` and the source skips the walk. -/
def validate_output_path (fs : FS) (userTemp : Path) (outputPath : Path) :
    Except PathErr Unit :=
  match (allowedTempDirs fs userTemp).find?
      (fun td => isWithinRoot (realpath fs outputPath) td) with
  | none => .error .invalidOutputPath
  | some matched =>
    if matched.isPrefixOf (realpath fs outputPath) then
      match walkParts fs ((realpath fs outputPath).drop matched.length) matched with
      | some bad => .error (.symlinkComponent bad)
      | none => .ok ()
    else .ok ()

/-- Fuel-indexed replacement of every occurrence of `pat` by the empty
string, as Python's `str.replace(pat, "")`; a step consumes at least one
character so `l.length` fuel suffices. -/
def replaceAllAux (pat : List Char) : Nat → List Char → List Char
  | 0, l => l
  | _ + 1, [] => []
  | fuel + 1, c :: rest =>
    if pat.isPrefixOf (c :: rest) && !pat.isEmpty then
      replaceAllAux pat fuel ((c :: rest).drop pat.length)
    else c :: replaceAllAux pat fuel rest

/-- Python `s.replace(pat, "")`. -/
def replaceAll (pat l : List Char) : List Char :=
  replaceAllAux pat l.length l

/-- The characters of the literal `.wav`. -/
def WAV : List Char := ['.', 'w', 'a', 'v']

/-- A filename matches the glob pattern `{basename}*.wav` iff it starts
with `basename`, ends with `.wav`, and is long enough for the two not to
overlap (the `*` matches any, possibly empty, run of characters). -/
def matchesPattern (basename f : List Char) : Bool :=
  basename.isPrefixOf f && WAV.isSuffixOf f && decide (basename.length + 4 ≤ f.length)

/-- The artifact base name of `generate_with_mlx` (tts_runner.py line 85):
the final component of the output path with `.wav` removed. -/
def mlxBasename (outputPath : Path) : List Char :=
  replaceAll WAV (outputPath.getLastD "").data

/-- Errors raised inside `generate_with_mlx` (the constructors name the
distinct raise sites of tts_runner.py lines 75, 102, 116 and 126). -/
inductive MlxErr
  | outsideTempDir
  | backendFailure (msg : String)
  | artifactNotFound
  | destIsSymlink
deriving DecidableEq

/-- Outcome of a `generate_with_mlx` job: its result, the final filesystem,
and how many times the scratch-directory cleanup (`shutil.rmtree` of the
scratch workspace) ran. -/
structure MlxOutcome where
  result : Except MlxErr Unit
  fs : FS
  releaseCount : Nat
deriving DecidableEq

/-- The unique scratch working directory produced by
`tempfile.mkdtemp(prefix="mlx_audio_", dir=base_temp)` for this job. -/
def SCRATCH : Path := ["tmp", "mlx_audio_scratch0"]

/-- The backend wrote the given named files into the scratch directory
(current working directory during generation). -/
def writeScratchFiles (fs : FS) (files : List (List Char × List Nat)) : FS :=
  files.foldl (fun acc f => acc.set (SCRATCH ++ [String.mk f.1]) (Node.file f.2)) fs

/-- The nonempty initial segments of a path, shortest first. -/
def prefixesOf (p : Path) : List Path :=
  (List.range p.length).map (fun n => p.take (n + 1))

/-- `os.makedirs(p, exist_ok=True)`: create a directory at every missing
initial segment of `p`. -/
def mkdirs (fs : FS) (p : Path) : FS :=
  (prefixesOf p).foldl (fun acc q => if (FS.lookup acc q).isSome then acc else acc.set q Node.dir) fs

/-- The artifact-move step of `generate_with_mlx` (tts_runner.py lines
120-133): refuse an existing symlink destination, then `shutil.move` the
chosen generated file onto the destination (which replaces any existing
regular file there) unless source and destination already coincide. -/
def relocateArtifact (fs : FS) (generated : List Char × List Nat) (outputPath : Path) :
    Except MlxErr Unit × FS :=
  if pexists fs outputPath && islink fs outputPath then
    (.error .destIsSymlink, fs)
  else if SCRATCH ++ [String.mk generated.1] ≠ outputPath then
    (.ok (), (fs.remove (SCRATCH ++ [String.mk generated.1])).set outputPath (Node.file generated.2))
  else
    (.ok (), fs)

/-- `generate_with_mlx` (tts_runner.py lines 59-142), abstracting the
neural backend as `backendFiles`: either the exception text it raised or
the named files it wrote into the scratch working directory.  The stages
mirror the source: the temp-containment pre-check on the output directory
(lines 69-81), the basename computation (line 85), scratch creation (line
91), the try block (make the output directory, run the backend, glob
`{basename}*.wav` in scratch, take the first match, relocate it), and the
finally block removing the scratch directory. -/
def generate_with_mlx (fs : FS) (baseTemp : Path) (outputPath : Path)
    (backendFiles : Except String (List (List Char × List Nat))) : MlxOutcome :=
  if commonPrefix (realpath fs outputPath.dropLast) baseTemp ≠ baseTemp then
    { result := .error .outsideTempDir, fs := fs, releaseCount := 0 }
  else
    let body : Except MlxErr Unit × FS :=
      let fs1 := mkdirs ((FS.set fs SCRATCH Node.dir)) outputPath.dropLast
      match backendFiles with
      | .error e => (.error (.backendFailure e), fs1)
      | .ok files =>
        let fs2 := writeScratchFiles fs1 files
        match files.filter (fun f => matchesPattern (mlxBasename outputPath) f.1) with
        | [] => (.error .artifactNotFound, fs2)
        | gf :: _ => relocateArtifact fs2 gf outputPath
    { result := body.1, fs := body.2.removeTree SCRATCH, releaseCount := 1 }

/-- A Python exception class, as far as the handlers in `detect_backend`
distinguish them: an `ImportError`, or anything else. -/
inductive PyExc
  | importError
  | otherError
deriving DecidableEq

/-- The backend chosen by `detect_backend`. -/
inductive Backend
  | mlx
  | cuda
  | mps
  | cpu
deriving DecidableEq

/-- Fatal outcomes of `detect_backend`: the deliberate `RuntimeError` when
PyTorch is missing, or an exception the function does not catch. -/
inductive DetectErr
  | missingRuntime
  | uncaught (e : PyExc)
deriving DecidableEq

/-- The host environment as `detect_backend` probes it: platform facts and
the outcome (normal return or raised exception) of each runtime probe. -/
structure HostProbe where
  isDarwin : Bool
  machineArm : Bool
  mlxImport : Except PyExc Unit
  torchImport : Except PyExc Unit
  cudaAvailable : Except PyExc Bool
  mpsAttrExists : Bool
  mpsAvailable : Except PyExc Bool
deriving DecidableEq

/-- The PyTorch half of `detect_backend` (tts_runner.py lines 35-56):
`import torch` guarded by `except ImportError` only, then the CUDA and MPS
availability checks, which are not guarded at all. -/
def detectTorchPart (h : HostProbe) : Except DetectErr Backend :=
  match h.torchImport with
  | .error .importError => .error .missingRuntime
  | .error .otherError => .error (.uncaught .otherError)
  | .ok _ =>
    match h.cudaAvailable with
    | .error e => .error (.uncaught e)
    | .ok true => .ok .cuda
    | .ok false =>
      if h.mpsAttrExists then
        match h.mpsAvailable with
        | .error e => .error (.uncaught e)
        | .ok true => .ok .mps
        | .ok false => .ok .cpu
      else .ok .cpu

/-- `detect_backend` (tts_runner.py lines 14-56): on Apple Silicon try the
MLX import, treating only `ImportError` as "not available"; otherwise fall
through to the PyTorch probes. -/
def detect_backend (h : HostProbe) : Except DetectErr Backend :=
  if h.isDarwin && h.machineArm then
    match h.mlxImport with
    | .ok _ => .ok .mlx
    | .error .importError => detectTorchPart h
    | .error .otherError => .error (.uncaught .otherError)
  else detectTorchPart h

/-- Python `str.isspace` characters relevant to `str.strip()`. -/
def pyIsSpace (c : Char) : Bool :=
  c = ' ' || c = '\t' || c = '\n' || c = '\r' || c = '\x0b' || c = '\x0c'

/-- Python `str.strip()`: drop whitespace from both ends. -/
def pyStrip (s : List Char) : List Char :=
  ((s.dropWhile pyIsSpace).reverse.dropWhile pyIsSpace).reverse

/-- The process exit status of `tts_runner.py`'s `main` (lines 240-283) as
a function of the input text and the synthesis outcome: empty stripped text
logs an error and returns from `main` (exit status 0); otherwise an
exception from the job is re-raised, terminating the process with a
non-zero status. -/
def ttsMainExit (text : List Char) (job : Except String Unit) : Nat :=
  if (pyStrip text).isEmpty then 0
  else
    match job with
    | .ok _ => 0
    | .error _ => 1

/-- The arguments of `kokoro_runner.py`'s `main`, together with the
existence of the model files its `check_required_files` probes.  Speeds are
modelled as rationals; every literal the source compares against (0.5, 2.0)
and every counterexample value is exactly representable as a float, so the
comparisons agree. -/
structure KokoroArgs where
  text : List Char
  speed : Rat
  lang : String
  voice : String
  modelExists : Bool
  voicesExists : Bool
deriving DecidableEq

/-- The parameters `kokoro_runner.py` hands to `kokoro.create` (lines
116-121). -/
structure KokoroCall where
  text : List Char
  voice : String
  speed : Rat
  lang : String
deriving DecidableEq

/-- The float literal `0.5` of kokoro_runner.py line 96, as the rational
one half (given in normal form so that kernel evaluation proceeds). -/
def half : Rat := ⟨1, 2, by decide, by decide⟩

/-- The argument-validation and dispatch of `kokoro_runner.py`'s `main`
(lines 89-121): reject empty stripped text (`sys.exit(1)`), reject a speed
outside [0.5, 2.0] (`sys.exit(1)`), reject missing model files
(`sys.exit(1)`), otherwise call the backend with the arguments as given. -/
def kokoro_main (a : KokoroArgs) : Except Nat KokoroCall :=
  if (pyStrip a.text).isEmpty then .error 1
  else if a.speed < half ∨ (2 : Rat) < a.speed then .error 1
  else if ¬a.modelExists ∨ ¬a.voicesExists then .error 1
  else .ok { text := a.text, voice := a.voice, speed := a.speed, lang := a.lang }

/-- The arguments of `coqui_tts.py`'s `main`. -/
structure CoquiArgs where
  text : List Char
  voice : String
  pitch : Rat
  speed : Rat
  emotion : String
  emotionStrength : Rat
deriving DecidableEq

/-- The parameters `coqui_tts.py` hands to `tts.tts_to_file` (lines
20-29). -/
structure CoquiCall where
  text : List Char
  pitch : Rat
  speed : Rat
  emotion : String
  emotionStrength : Rat
deriving DecidableEq

/-- `coqui_tts.py`'s `main` (lines 4-29): no validation at all, every
tuning parameter is forwarded verbatim to the backend call. -/
def coqui_main (a : CoquiArgs) : CoquiCall :=
  { text := a.text, pitch := a.pitch, speed := a.speed,
    emotion := a.emotion, emotionStrength := a.emotionStrength }

/-- The value of the global `torch.load`, modelled by its provenance: the
library original, or a wrapper injecting a default `map_location` device
around an inner value. -/
inductive LoadFn
  | base
  | withDefaultDevice (device : String) (inner : LoadFn)
deriving DecidableEq

/-- The effective `map_location` a load function passes to the library
given the caller-supplied one: the wrapper fills in its device only when
the caller supplied none (tts_runner.py lines 156-159). -/
def applyLoad : LoadFn → Option String → Option String
  | .base, kw => kw
  | .withDefaultDevice d inner, kw => applyLoad inner (some (kw.getD d))

/-- Outcome of `generate_with_pytorch` as far as the `torch.load` global is
concerned: the body's result, the global's final value, and the value the
body saw while running. -/
structure PTOutcome where
  result : Except String Unit
  finalLoad : LoadFn
  loadDuringBody : LoadFn
deriving DecidableEq

/-- `generate_with_pytorch` (tts_runner.py lines 145-183), abstracting the
model work as `body` (a computation seeing the current `torch.load`): save
the original `torch.load`, install the device-injecting wrapper, run the
body, and restore the original in the `finally` block on both the normal
and the raising exit. -/
def generate_with_pytorch (initialLoad : LoadFn) (device : String)
    (body : LoadFn → Except String Unit) : PTOutcome :=
  let original := initialLoad
  let patched := LoadFn.withDefaultDevice device original
  match body patched with
  | .ok u => { result := .ok u, finalLoad := original, loadDuringBody := patched }
  | .error e => { result := .error e, finalLoad := original, loadDuringBody := patched }

/-- Fixture: `/tmp/a` is a symlink to the regular file `/tmp/b`. -/
def fsA : FS :=
  ⟨[(["tmp"], Node.dir), (["tmp", "b"], Node.file [1]),
    (["tmp", "a"], Node.symlink ["tmp", "b"])]⟩

/-- Fixture: `/tmp/link` is a symlink to the directory `/tmp/real`. -/
def fsB : FS :=
  ⟨[(["tmp"], Node.dir), (["tmp", "real"], Node.dir),
    (["tmp", "link"], Node.symlink ["tmp", "real"])]⟩

/-- Fixture: `/tmp/out.wav` is an existing non-empty regular file. -/
def fsC : FS :=
  ⟨[(["tmp"], Node.dir), (["tmp", "out.wav"], Node.file [1, 2, 3])]⟩

/-- Fixture: `/tmp/lnk` is a symlink to the existing regular file
`/tmp/t`. -/
def fsD : FS :=
  ⟨[(["tmp"], Node.dir), (["tmp", "t"], Node.file [7]),
    (["tmp", "lnk"], Node.symlink ["tmp", "t"])]⟩

/-- Fixture: a bare `/tmp` with nothing in it. -/
def fsE : FS := ⟨[(["tmp"], Node.dir)]⟩

/-- Fixture: `/tmp/evil` is a pre-existing symlink to `/etc/passwd`. -/
def fsW : FS :=
  ⟨[(["tmp"], Node.dir), (["etc"], Node.dir),
    (["etc", "passwd"], Node.file [42]),
    (["tmp", "evil"], Node.symlink ["etc", "passwd"])]⟩

/-- Fixture probe: not Apple Silicon, torch importable, but the CUDA
availability check raises a non-ImportError exception. -/
def probeCudaThrows : HostProbe :=
  { isDarwin := false, machineArm := false, mlxImport := .error .importError,
    torchImport := .ok (), cudaAvailable := .error .otherError,
    mpsAttrExists := true, mpsAvailable := .ok false }

/-- Fixture probe: every optional probe fails benignly (MLX import raises
`ImportError`, no accelerator reported), torch present. -/
def probeAllBenign : HostProbe :=
  { isDarwin := true, machineArm := true, mlxImport := .error .importError,
    torchImport := .ok (), cudaAvailable := .ok false,
    mpsAttrExists := true, mpsAvailable := .ok false }

/-- Fixture: a kokoro request with the out-of-range speed 3.0 and
everything else in order. -/
def kargsFast : KokoroArgs :=
  { text := "hi".data, speed := 3, lang := "en-us", voice := "af_sarah",
    modelExists := true, voicesExists := true }

/-- Fixture: the same kokoro request with the in-range speed 1.0. -/
def kargsOk : KokoroArgs :=
  { text := "hi".data, speed := 1, lang := "en-us", voice := "af_sarah",
    modelExists := true, voicesExists := true }

/-- Fixture: a coqui request. -/
def cargsOk : CoquiArgs :=
  { text := "hi".data, voice := "v", pitch := 1, speed := 1, emotion := "neutral",
    emotionStrength := 1 }

/-- Prefix relation on cons cells, unfolded. -/
theorem consPrefixCons {α : Type _} {a b : α} {l m : List α} :
    a :: l <+: b :: m ↔ a = b ∧ l <+: m := by
  constructor
  · rintro ⟨t, ht⟩
    injection ht with h1 h2
    exact ⟨h1, t, h2⟩
  · rintro ⟨rfl, t, ht⟩
    exact ⟨t, by rw [List.cons_append, ht]⟩

/-- The boolean `List.isPrefixOf` decides the prefix relation. -/
theorem isPrefixOfIff {α : Type _} [BEq α] [LawfulBEq α] :
    ∀ l m : List α, l.isPrefixOf m = true ↔ l <+: m := by
  intro l
  induction l with
  | nil =>
    intro m
    constructor
    · intro _
      exact ⟨m, rfl⟩
    · intro _
      cases m <;> rfl
  | cons a as ih =>
    intro m
    cases m with
    | nil =>
      constructor
      · intro h; cases h
      · rintro ⟨t, ht⟩; cases ht
    | cons b bs =>
      simp [List.isPrefixOf, Bool.and_eq_true, beq_iff_eq, ih, consPrefixCons]

/-- The common segment prefix is a prefix of its left argument. -/
theorem commonPrefixPrefixLeft : ∀ a b : Path, commonPrefix a b <+: a := by
  intro a
  induction a with
  | nil =>
    intro b
    cases b <;> exact ⟨[], rfl⟩
  | cons x xs ih =>
    intro b
    cases b with
    | nil => exact ⟨x :: xs, rfl⟩
    | cons y ys =>
      by_cases hxy : x = y
      · subst hxy
        simp only [commonPrefix, if_pos rfl]
        exact consPrefixCons.mpr ⟨rfl, ih ys⟩
      · simp only [commonPrefix, if_neg hxy]
        exact ⟨x :: xs, rfl⟩

/-- When the right argument is a prefix of the left, the common segment
prefix is exactly the right argument. -/
theorem commonPrefixOfPrefixRight : ∀ a b : Path, b <+: a → commonPrefix a b = b := by
  intro a
  induction a with
  | nil =>
    rintro b ⟨t, ht⟩
    rcases List.append_eq_nil.mp ht with ⟨rfl, -⟩
    rfl
  | cons x xs ih =>
    intro b hb
    cases b with
    | nil => rfl
    | cons y ys =>
      obtain ⟨rfl, hys⟩ := consPrefixCons.mp hb
      simp [commonPrefix, ih ys hys]

/-- After `removeTree p`, nothing at or below `p` can be looked up. -/
theorem lookupRemoveTree (fs : FS) {p q : Path} (h : p.isPrefixOf q = true) :
    (FS.removeTree fs p).lookup q = none := by
  have hfind : (fs.entries.filter (fun e => !(p.isPrefixOf e.1))).find?
      (fun e => e.1 == q) = none := by
    apply List.find?_eq_none.mpr
    intro e he hbeq
    obtain ⟨-, hkeep⟩ := List.mem_filter.mp he
    have heq : e.1 = q := by simpa using hbeq
    rw [heq] at hkeep
    simp [h] at hkeep
  simp [FS.lookup, FS.removeTree, hfind]

/-- Claim C2 (counterexample): a raw output path that names an existing
symlink is not rejected by `validate_output_path` when the link target lies
inside the allowed temp directory — with `/tmp/a` a symlink to the regular
file `/tmp/b`, validation succeeds, so no `SymlinkRejected`-style failure
occurs at validation time. -/
theorem C2_counterexample :
    islink fsA ["tmp", "a"] = true ∧ pexists fsA ["tmp", "a"] = true ∧
      validate_output_path fsA ["tmp"] ["tmp", "a"] = .ok () := by decide

/-- Claim C2 (amended): `validate_output_path` resolves a symlink raw path
to its target; whenever the resolved target lies outside every allowed temp
directory (as in the `/tmp/evil` → `/etc/passwd` scenario), validation
fails with the generic invalid-output-path `ValueError` — not a dedicated
symlink rejection — and, being read-only, writes nothing. -/
theorem C2_symlink_outside_root (fs : FS) (userTemp p : Path)
    (_hlink : islink fs p = true)
    (hout : ∀ td ∈ allowedTempDirs fs userTemp, isWithinRoot (realpath fs p) td = false) :
    validate_output_path fs userTemp p = .error PathErr.invalidOutputPath := by
  have hnone : (allowedTempDirs fs userTemp).find?
      (fun td => isWithinRoot (realpath fs p) td) = none := by
    apply List.find?_eq_none.mpr
    intro td htd
    simp [hout td htd]
  simp [validate_output_path, hnone]

/-- Claim C2 (witness): the end-to-end scenario — `/tmp/evil` a pre-existing
symlink to `/etc/passwd` — fails validation with the invalid-output-path
error. -/
theorem C2_witness :
    validate_output_path fsW ["tmp"] ["tmp", "evil"] = .error PathErr.invalidOutputPath :=
  C2_symlink_outside_root fsW ["tmp"] ["tmp", "evil"] (by decide) (by decide)

/-- Claim C3 (counterexample): a path whose existing ancestor component
between the matched root and the target is a symlink can validate
successfully — with `/tmp/link` a symlink to the directory `/tmp/real`,
`validate_output_path` accepts `/tmp/link/out.wav` instead of failing. -/
theorem C3_counterexample :
    islink fsB ["tmp", "link"] = true ∧
      validate_output_path fsB ["tmp"] ["tmp", "link", "out.wav"] = .ok () := by decide

/-- Claim C3 (amended): validation depends only on the fully resolved form
of the raw path — two raw paths with the same `realpath` validate
identically, so ancestor symlinks are resolved away rather than rejected;
the `SymlinkInPath` walk examines only components of the already-resolved
path. -/
theorem C3_resolved_path_determines (fs : FS) (userTemp p q : Path)
    (h : realpath fs p = realpath fs q) :
    validate_output_path fs userTemp p = validate_output_path fs userTemp q := by
  simp only [validate_output_path, h]

/-- Claim C3 (witness): `/tmp/link/out.wav` (through the symlinked
directory) and `/tmp/real/out.wav` (the plain directory) resolve alike and
validate alike. -/
theorem C3_witness :
    realpath fsB ["tmp", "link", "out.wav"] = realpath fsB ["tmp", "real", "out.wav"] ∧
      validate_output_path fsB ["tmp"] ["tmp", "link", "out.wav"] =
        validate_output_path fsB ["tmp"] ["tmp", "real", "out.wav"] :=
  ⟨by decide, C3_resolved_path_determines fsB ["tmp"] _ _ (by decide)⟩

/-- Claim C1 (counterexample): `generate_with_mlx` overwrites an existing
non-empty regular file at the destination — `/tmp/out.wav` holds bytes
`[1, 2, 3]`, the move succeeds with no `DestinationExists`-style error, and
the destination afterwards holds the backend's bytes `[9, 9]`. -/
theorem C1_counterexample :
    fsC.lookup ["tmp", "out.wav"] = some (Node.file [1, 2, 3]) ∧
      islink fsC ["tmp", "out.wav"] = false ∧
      (generate_with_mlx fsC ["tmp"] ["tmp", "out.wav"]
          (.ok [("out_000.wav".data, [9, 9])])).result = .ok () ∧
      (generate_with_mlx fsC ["tmp"] ["tmp", "out.wav"]
          (.ok [("out_000.wav".data, [9, 9])])).fs.lookup ["tmp", "out.wav"] =
        some (Node.file [9, 9]) := by decide

/-- Claim C1 (amended): the artifact-move step refuses only a destination
that exists and is a symlink, failing with the symlink-destination
`ValueError` and leaving the filesystem unchanged; an existing non-empty
regular file destination gets overwritten by the move (see the
counterexample). -/
theorem C1_refusal_only_for_symlink (fs : FS) (generated : List Char × List Nat)
    (outputPath : Path) (hex : pexists fs outputPath = true)
    (hlink : islink fs outputPath = true) :
    relocateArtifact fs generated outputPath = (.error .destIsSymlink, fs) := by
  simp [relocateArtifact, hex, hlink]

/-- Claim C1 (witness): with `/tmp/lnk` a symlink to the existing file
`/tmp/t`, relocation refuses and changes nothing. -/
theorem C1_witness :
    relocateArtifact fsD ("out_000.wav".data, [9]) ["tmp", "lnk"] =
      (.error .destIsSymlink, fsD) :=
  C1_refusal_only_for_symlink fsD ("out_000.wav".data, [9]) ["tmp", "lnk"]
    (by decide) (by decide)

/-- Claim C6 (counterexample): with two artifacts `out_000.wav` and
`out_001.wav` in scratch matching the pattern `out*.wav`, the job does not
fail with an ambiguous-artifact error — it silently relocates the first
listed match. -/
theorem C6_counterexample :
    (generate_with_mlx fsE ["tmp"] ["tmp", "out.wav"]
        (.ok [("out_000.wav".data, [1]), ("out_001.wav".data, [2])])).result = .ok () ∧
      (generate_with_mlx fsE ["tmp"] ["tmp", "out.wav"]
          (.ok [("out_000.wav".data, [1]), ("out_001.wav".data, [2])])).fs.lookup
        ["tmp", "out.wav"] = some (Node.file [1]) := by decide

/-- Claim C6 (amended): when no scratch entry matches the expected pattern
the job fails with the artifact-not-found error and the scratch directory
is still released; more than one match is not an error (see the
counterexample: the first listed match is silently taken). -/
theorem C6_zero_matches (fs : FS) (baseTemp outputPath : Path)
    (files : List (List Char × List Nat))
    (hpre : commonPrefix (realpath fs outputPath.dropLast) baseTemp = baseTemp)
    (hnone : files.filter (fun f => matchesPattern (mlxBasename outputPath) f.1) = []) :
    (generate_with_mlx fs baseTemp outputPath (.ok files)).result = .error .artifactNotFound ∧
      (generate_with_mlx fs baseTemp outputPath (.ok files)).releaseCount = 1 := by
  have hcond : ¬commonPrefix (realpath fs outputPath.dropLast) baseTemp ≠ baseTemp := by
    simp [hpre]
  constructor <;> simp only [generate_with_mlx, if_neg hcond, hnone]

/-- Claim C6 (witness): a backend that only produced `noise.mp3` yields the
artifact-not-found failure, with the scratch directory released. -/
theorem C6_witness :
    (generate_with_mlx fsE ["tmp"] ["tmp", "out.wav"]
        (.ok [("noise.mp3".data, [5])])).result = .error .artifactNotFound ∧
      (generate_with_mlx fsE ["tmp"] ["tmp", "out.wav"]
          (.ok [("noise.mp3".data, [5])])).releaseCount = 1 :=
  C6_zero_matches fsE ["tmp"] ["tmp", "out.wav"] [("noise.mp3".data, [5])]
    (by decide) (by decide)

/-- Claim C7: every job that passes the pre-check and so creates the
scratch working directory (reaches `WorkspaceReady`) runs the cleanup
exactly once on exit — for every backend outcome, success or failure —
and afterwards nothing at or below the scratch directory exists. -/
theorem C7_scratch_released (fs : FS) (baseTemp outputPath : Path)
    (backendFiles : Except String (List (List Char × List Nat)))
    (hpre : commonPrefix (realpath fs outputPath.dropLast) baseTemp = baseTemp) :
    (generate_with_mlx fs baseTemp outputPath backendFiles).releaseCount = 1 ∧
      ∀ q : Path, SCRATCH.isPrefixOf q = true →
        (generate_with_mlx fs baseTemp outputPath backendFiles).fs.lookup q = none := by
  have hcond : ¬commonPrefix (realpath fs outputPath.dropLast) baseTemp ≠ baseTemp := by
    simp [hpre]
  constructor
  · simp [generate_with_mlx, if_neg hcond]
  · intro q hq
    simp only [generate_with_mlx, if_neg hcond]
    exact lookupRemoveTree _ hq

/-- Claim C7 (witness): a failing backend still leaves no scratch directory
behind, and the release ran exactly once. -/
theorem C7_witness :
    (generate_with_mlx fsE ["tmp"] ["tmp", "o.wav"] (.error "boom")).releaseCount = 1 ∧
      (generate_with_mlx fsE ["tmp"] ["tmp", "o.wav"] (.error "boom")).fs.lookup SCRATCH =
        none :=
  ⟨(C7_scratch_released fsE ["tmp"] ["tmp", "o.wav"] (.error "boom") (by decide)).1,
   (C7_scratch_released fsE ["tmp"] ["tmp", "o.wav"] (.error "boom") (by decide)).2
     SCRATCH (by decide)⟩

/-- Strings with equal character data are equal. -/
theorem stringDataInj {s t : String} (h : s.data = t.data) : s = t :=
  String.ext h

/-- Separator-free chunks: if one chunk-then-separator rendering is a
prefix of another, the chunks agree and the remainders stay in the prefix
relation. -/
theorem sepChunkPrefix : ∀ {a b as bs : List Char}, SEP ∉ a → SEP ∉ b →
    (a ++ SEP :: as) <+: (b ++ SEP :: bs) → a = b ∧ as <+: bs := by
  intro a
  induction a with
  | nil =>
    intro b as bs _ hb h
    cases b with
    | nil => exact ⟨rfl, (consPrefixCons.mp h).2⟩
    | cons c b2 =>
      obtain ⟨hc, -⟩ := consPrefixCons.mp h
      exact absurd (show SEP ∈ c :: b2 by rw [hc]; exact List.mem_cons_self c b2) hb
  | cons c a2 ih =>
    intro b as bs ha hb h
    cases b with
    | nil =>
      obtain ⟨hc, -⟩ := consPrefixCons.mp h
      exact absurd (show SEP ∈ c :: a2 by rw [← hc]; exact List.mem_cons_self c a2) ha
    | cons d b2 =>
      obtain ⟨rfl, h2⟩ := consPrefixCons.mp h
      have ha2 : SEP ∉ a2 := fun hm => ha (List.mem_cons_of_mem c hm)
      have hb2 : SEP ∉ b2 := fun hm => hb (List.mem_cons_of_mem c hm)
      obtain ⟨heq, hpre⟩ := ih ha2 hb2 h2
      exact ⟨by rw [heq], hpre⟩

/-- When the rendering of `R` followed by a separator is a string prefix of
the rendering of `P` (both separator-free segment lists), `R` is a segment
prefix of `P`. -/
theorem renderTailPrefix : ∀ {R P : Path}, wfPath R → wfPath P →
    (renderTail R ++ [SEP]) <+: renderTail P → R <+: P := by
  intro R
  induction R with
  | nil =>
    intro P _ _ _
    exact ⟨P, rfl⟩
  | cons r rs ih =>
    intro P hR hP h
    have hr : SEP ∉ r.data := hR r (List.mem_cons_self r rs)
    have hrs : wfPath rs := fun s hs => hR s (List.mem_cons_of_mem r hs)
    cases P with
    | nil =>
      exfalso
      obtain ⟨t, ht⟩ := h
      cases rs <;> simp [renderTail] at ht
    | cons p ps =>
      have hp : SEP ∉ p.data := hP p (List.mem_cons_self p ps)
      have hps : wfPath ps := fun s hs => hP s (List.mem_cons_of_mem p hs)
      cases ps with
      | nil =>
        exfalso
        obtain ⟨t, ht⟩ := h
        apply hp
        have hmem : SEP ∈ renderTail [p] := by
          rw [← ht]
          cases rs <;> simp [renderTail]
        simpa [renderTail] using hmem
      | cons q qs =>
        cases rs with
        | nil =>
          simp only [renderTail] at h
          obtain ⟨heq, -⟩ := sepChunkPrefix hr hp h
          exact consPrefixCons.mpr ⟨stringDataInj heq, q :: qs, rfl⟩
        | cons s rs2 =>
          simp only [renderTail, List.append_assoc, List.cons_append] at h
          obtain ⟨heq, hpre⟩ := sepChunkPrefix hr hp h
          exact consPrefixCons.mpr ⟨stringDataInj heq, ih hrs hps hpre⟩

/-- Claim C4: the containment test used by `validate_output_path` (and the
`commonpath` form used by `generate_with_mlx`) is segment-precise: a
resolved path is judged inside a root exactly when the root's segment list
is a prefix of the path's segments (equality or true descent), never by a
raw string prefix — so `/tmp/foo` is not judged inside `/tmp/foobar`, nor
conversely. -/
theorem C4_segment_containment (P R : Path) (hP : wfPath P) (hR : wfPath R) :
    (isWithinRoot P R = true ↔ R <+: P) ∧ (commonPrefix P R = R ↔ R <+: P) := by
  have hcp : commonPrefix P R = R ↔ R <+: P :=
    ⟨fun h => h ▸ commonPrefixPrefixLeft P R, commonPrefixOfPrefixRight P R⟩
  refine ⟨⟨?_, ?_⟩, hcp⟩
  · intro h
    have h3 : (renderPath R ++ [SEP]).isPrefixOf (renderPath P) = true ∨
        P = R ∨ commonPrefix P R = R := by
      simpa [isWithinRoot, Bool.or_eq_true, decide_eq_true_eq, or_assoc] using h
    rcases h3 with h1 | h2 | h3
    · have h1p := (isPrefixOfIff _ _).mp h1
      rw [renderPath, renderPath, List.cons_append] at h1p
      exact renderTailPrefix hR hP (consPrefixCons.mp h1p).2
    · subst h2
      exact ⟨[], List.append_nil _⟩
    · exact hcp.mp h3
  · intro h
    have hc := hcp.mpr h
    simp [isWithinRoot, hc]

/-- Claim C4 (witness): root-boundary precision at the spec's own example —
`/tmp/foo` is not inside root `/tmp/foobar` and conversely. -/
theorem C4_witness :
    (isWithinRoot ["tmp", "foo"] ["tmp", "foobar"] = true ↔
        ["tmp", "foobar"] <+: ["tmp", "foo"]) ∧
      (isWithinRoot ["tmp", "foobar"] ["tmp", "foo"] = true ↔
        ["tmp", "foo"] <+: ["tmp", "foobar"]) :=
  ⟨(C4_segment_containment ["tmp", "foo"] ["tmp", "foobar"] (by decide) (by decide)).1,
   (C4_segment_containment ["tmp", "foobar"] ["tmp", "foo"] (by decide) (by decide)).1⟩

/-- Claim C5 (counterexample): a probe that throws a non-ImportError while
checking CUDA availability propagates out of `detect_backend` instead of
producing the CPU fallback. -/
theorem C5_counterexample :
    detect_backend probeCudaThrows = .error (.uncaught .otherError) := by decide

/-- Claim C5 (amended): when the availability checks return normally and
the import probes fail only with `ImportError`, selection is total — some
backend is returned, CPU at worst — and the only fatal outcome is
`missingRuntime`, exactly when the torch import fails; a throwing
availability check or a non-ImportError import failure instead propagates
uncaught. -/
theorem C5_total_when_probes_return (h : HostProbe)
    (hcuda : ∃ cb, h.cudaAvailable = Except.ok cb)
    (hmps : ∃ mb, h.mpsAvailable = Except.ok mb)
    (hmlx : h.mlxImport ≠ Except.error PyExc.otherError)
    (htorch : h.torchImport ≠ Except.error PyExc.otherError) :
    (∃ b, detect_backend h = Except.ok b) ∨
      (detect_backend h = Except.error DetectErr.missingRuntime ∧
        h.torchImport = Except.error PyExc.importError) := by
  obtain ⟨cb, hc⟩ := hcuda
  obtain ⟨mb, hm⟩ := hmps
  have hmlx2 : h.mlxImport = Except.ok () ∨ h.mlxImport = Except.error PyExc.importError := by
    rcases hml : h.mlxImport with e | u
    · cases e
      · exact Or.inr rfl
      · exact absurd hml hmlx
    · cases u
      exact Or.inl rfl
  have htorch2 : h.torchImport = Except.ok () ∨
      h.torchImport = Except.error PyExc.importError := by
    rcases hto : h.torchImport with e | u
    · cases e
      · exact Or.inr rfl
      · exact absurd hto htorch
    · cases u
      exact Or.inl rfl
  cases hd : h.isDarwin <;> cases hma : h.machineArm <;>
    rcases hmlx2 with hml | hml <;> rcases htorch2 with hto | hto <;>
    cases cb <;> cases hat : h.mpsAttrExists <;> cases mb <;>
    simp_all [detect_backend, detectTorchPart]

/-- Claim C5 (witness): with every optional probe failing benignly and
torch importable, selection terminates with a backend. -/
theorem C5_witness :
    (∃ b, detect_backend probeAllBenign = Except.ok b) ∨
      (detect_backend probeAllBenign = Except.error DetectErr.missingRuntime ∧
        probeAllBenign.torchImport = Except.error PyExc.importError) :=
  C5_total_when_probes_return probeAllBenign ⟨false, rfl⟩ ⟨false, rfl⟩
    (by decide) (by decide)

/-- Claim C8 (code bug): `tts_runner.py`'s `main` logs "Input text cannot
be empty" for whitespace-only input but then plainly returns, so the
process exits with status 0 even though the job was rejected — against the
non-zero-exit-on-failure contract that its sibling `kokoro_runner.py`
honours with `sys.exit(1)` on the same condition. -/
theorem C8_empty_text_exit_zero :
    pyStrip " \t".data = [] ∧ ttsMainExit " \t".data (.ok ()) = 0 ∧
      ttsMainExit " \t".data (.error "job failed") = 0 := by decide

/-- Claim C9 (counterexample): the kokoro front-end does interpret and
bound a tuning parameter — a speed of 3.0 is rejected with `sys.exit(1)`
before the generation backend is ever invoked. -/
theorem C9_counterexample : kokoro_main kargsFast = .error 1 := by decide

/-- Claim C9 (amended): voice, language and in-range speed are forwarded
verbatim to the kokoro backend call, and the coqui front-end forwards every
tuning parameter (pitch, speed, emotion, emotion strength) unmodified; but
`kokoro_runner.py` bounds speed to [0.5, 2.0] and rejects values outside
that range before invoking the backend. -/
theorem C9_passthrough_in_range (a : KokoroArgs)
    (htext : (pyStrip a.text).isEmpty = false)
    (hlo : ¬a.speed < half) (hhi : ¬(2 : Rat) < a.speed)
    (hm : a.modelExists = true) (hv : a.voicesExists = true) :
    kokoro_main a = .ok { text := a.text, voice := a.voice, speed := a.speed, lang := a.lang } ∧
      ∀ c : CoquiArgs, coqui_main c = { text := c.text, pitch := c.pitch, speed := c.speed, emotion := c.emotion, emotionStrength := c.emotionStrength } := by
  constructor
  · simp [kokoro_main, htext, hlo, hhi, hm, hv]
  · intro c
    rfl

/-- Claim C9 (witness): an in-range request is forwarded untouched, by both
front-ends. -/
theorem C9_witness :
    kokoro_main kargsOk = .ok { text := "hi".data, voice := "af_sarah", speed := 1, lang := "en-us" } ∧
      coqui_main cargsOk = { text := "hi".data, pitch := 1, speed := 1, emotion := "neutral", emotionStrength := 1 } :=
  ⟨(C9_passthrough_in_range kargsOk (by decide) (by decide) (by decide) rfl rfl).1,
   (C9_passthrough_in_range kargsOk (by decide) (by decide) (by decide) rfl rfl).2 cargsOk⟩

/-- Claim C10: whatever the body of `generate_with_pytorch` does — return
normally or raise — the `finally` block restores the global `torch.load`
to its entry value, while during the body the device-injecting wrapper was
installed. -/
theorem C10_torch_load_restored (initialLoad : LoadFn) (device : String)
    (body : LoadFn → Except String Unit) :
    (generate_with_pytorch initialLoad device body).finalLoad = initialLoad ∧
      (generate_with_pytorch initialLoad device body).loadDuringBody =
        LoadFn.withDefaultDevice device initialLoad ∧
      (generate_with_pytorch initialLoad device body).result =
        body (LoadFn.withDefaultDevice device initialLoad) := by
  cases hb : body (LoadFn.withDefaultDevice device initialLoad) <;>
    simp [generate_with_pytorch, hb]

end LocalVoice
